import Mathlib

/-!
Verification of the `ip_tracking` request-ingress guard.

Shallow embedding of the repository's decision code:
  * `ip_tracking/ip_tracking/middleware.py` — client-IP resolution,
    blocklist check with cache, geolocation with multi-provider fallback
    and cache, request logging pipeline (`IPTrackingMiddleware`);
  * `ip_tracking/ip_tracking/tasks.py` — suspicious-activity detector;
  * `ip_tracking/ip_tracking/views.py` — rate-limited login endpoint;
  * `ip_tracking/management/commands/block_ip.py` — block/unblock command.

Python strings are Lean `String`s; Python `None`-able values are `Option`;
Python dict lookups are association-list lookups; the Django cache is an
association list with explicit get/set/delete; the database tables are
lists of records.  Timestamps are integers (seconds).
-/

/-! ## Python string primitives used by the source -/

/-- Python `str.split(sep)` for a one-character separator, on char lists:
splitting the empty string yields `[[]]`, like Python's `[""]`. -/
def splitOnChar (c : Char) : List Char → List (List Char)
  | [] => [[]]
  | x :: xs =>
    match splitOnChar c xs with
    | [] => [[]]
    | r :: rs => if x = c then [] :: r :: rs else (x :: r) :: rs

/-- Whitespace stripped by Python `str.strip()` (ASCII subset). -/
def pyIsSpace (c : Char) : Bool :=
  c = ' ' || c = '\t' || c = '\n' || c = '\r' || c = '\x0b' || c = '\x0c'

/-- Python `str.strip()`. -/
def pyStrip (s : String) : String :=
  String.mk (((s.data.dropWhile pyIsSpace).reverse.dropWhile pyIsSpace).reverse)

/-- Python `s.split(c)` returning strings. -/
def pySplit (s : String) (c : Char) : List String :=
  (splitOnChar c s.data).map String.mk

/-- First element of a Python split: `s.split(c)[0]`. -/
def firstSplit (s : String) (c : Char) : String :=
  match pySplit s c with
  | [] => ""
  | h :: _ => h

/-- Python truthiness of an optional string (`META.get(k)` patterns):
`None` and `""` are falsy, every other string truthy. -/
def truthyStr : Option String → Bool
  | none => false
  | some s => s ≠ ""

/-! ## Association lists: Python dicts and the Django cache -/

/-- Dict/cache read: `d.get(k)` / `cache.get(k)`. -/
def lookupAssoc {α : Type} (l : List (String × α)) (k : String) : Option α :=
  match l.find? (fun p => p.1 = k) with
  | some p => some p.2
  | none => none

/-- Cache delete: `cache.delete(k)` removes the key. -/
def removeAssoc {α : Type} (l : List (String × α)) (k : String) : List (String × α) :=
  l.filter (fun p => p.1 ≠ k)

/-- Cache write: `cache.set(k, v, ttl)` binds `k` to `v` (TTLs are not
modelled; all claims concern behaviour inside the validity window). -/
def setAssoc {α : Type} (l : List (String × α)) (k : String) (v : α) : List (String × α) :=
  removeAssoc l k ++ [(k, v)]

/-! ## `ipaddress.ip_address` : parsing and classification

`is_private_ip` in middleware.py delegates to the Python standard library:
`ip_address(s)` parses `s` as IPv4 then as IPv6 (raising `ValueError` on
failure), and the middleware tests `is_private or is_loopback or
is_link_local`.  The parser below follows CPython's `ipaddress` grammar:
IPv4 is four dot-separated decimal octets (1–3 digits, no leading zeros,
each ≤ 255); IPv6 is colon-separated hextets of 1–4 hex digits with at
most one `::`, an optional trailing dotted-quad IPv4 part, and an optional
non-empty `%scope` suffix. -/

/-- Value of one hex digit, per CPython's `_HEX_DIGITS`. -/
def hexVal (c : Char) : Option Nat :=
  if '0' ≤ c ∧ c ≤ '9' then some (c.toNat - 48)
  else if 'a' ≤ c ∧ c ≤ 'f' then some (c.toNat - 87)
  else if 'A' ≤ c ∧ c ≤ 'F' then some (c.toNat - 55)
  else none

/-- CPython `_parse_hextet`: 1–4 hex digits. -/
def parseHextet (cs : List Char) : Option Nat :=
  if cs.length = 0 ∨ cs.length > 4 then none
  else
    cs.foldl
      (fun acc c =>
        match acc, hexVal c with
        | some a, some v => some (a * 16 + v)
        | _, _ => none)
      (some 0)

/-- CPython `_parse_octet`: 1–3 decimal digits, no leading zero, ≤ 255. -/
def parseOctet (cs : List Char) : Option Nat :=
  if cs.length = 0 ∨ cs.length > 3 then none
  else if ¬ cs.all Char.isDigit then none
  else if cs.length > 1 ∧ cs.headD '0' = '0' then none
  else
    let v := cs.foldl (fun acc c => acc * 10 + (c.toNat - 48)) 0
    if v > 255 then none else some v

/-- CPython `IPv4Address._ip_int_from_string` on a char list. -/
def parseIPv4Chars (cs : List Char) : Option Nat :=
  match (splitOnChar '.' cs).map parseOctet with
  | [some a, some b, some c, some d] => some (((a * 256 + b) * 256 + c) * 256 + d)
  | _ => none

/-- `ipaddress.IPv4Address(s)` as a 32-bit value. -/
def pyIPv4 (s : String) : Option Nat :=
  parseIPv4Chars s.data

/-- A part of an IPv6 address after the trailing-IPv4 substitution:
either an unparsed hextet string or an already-numeric hextet. -/
inductive Hx where
  | s (p : List Char)
  | v (n : Nat)
deriving DecidableEq

def hxEmpty : Hx → Bool
  | Hx.s p => p.isEmpty
  | Hx.v _ => false

def hxParse : Hx → Option Nat
  | Hx.s p => parseHextet p
  | Hx.v n => some n

/-- Turn a list of optional hextets into an optional list. -/
def seqOptions : List (Option Nat) → Option (List Nat)
  | [] => some []
  | o :: rest =>
    match o, seqOptions rest with
    | some v, some vs => some (v :: vs)
    | _, _ => none

/-- Assemble the 128-bit value: high hextets, skipped zero hextets from
`::`, then low hextets — CPython's shift-and-or loop. -/
def combineHextets (hi : List Nat) (skipped : Nat) (lo : List Nat) : Nat :=
  lo.foldl (fun a h => a * 65536 + h)
    ((hi.foldl (fun a h => a * 65536 + h) 0) * 65536 ^ skipped)

/-- CPython `IPv6Address._ip_int_from_string` (scope already removed). -/
def pyIPv6Core (cs : List Char) : Option Nat :=
  let rawParts := splitOnChar ':' cs
  if rawParts.length < 3 then none
  else
    let partsOpt : Option (List Hx) :=
      match rawParts.getLast? with
      | none => none
      | some last =>
        if last.contains '.' then
          match parseIPv4Chars last with
          | none => none
          | some v => some (rawParts.dropLast.map Hx.s ++ [Hx.v (v / 65536), Hx.v (v % 65536)])
        else some (rawParts.map Hx.s)
    match partsOpt with
    | none => none
    | some parts =>
      let pl := parts.length
      let skips := (List.range pl).filter
        (fun i => 0 < i && i + 1 < pl && hxEmpty (parts.getD i (Hx.v 0)))
      match skips with
      | [] =>
        if pl = 8 then
          match seqOptions (parts.map hxParse) with
          | some hs => some (combineHextets hs 0 [])
          | none => none
        else none
      | [skip] =>
        let hi0 := skip
        let lo0 := pl - skip - 1
        let headEmpty := hxEmpty (parts.getD 0 (Hx.v 0))
        let lastEmpty := hxEmpty (parts.getD (pl - 1) (Hx.v 0))
        let hi := if headEmpty then hi0 - 1 else hi0
        let lo := if lastEmpty then lo0 - 1 else lo0
        if headEmpty ∧ hi0 - 1 ≠ 0 then none
        else if lastEmpty ∧ lo0 - 1 ≠ 0 then none
        else if hi + lo > 7 then none
        else
          match seqOptions ((parts.take hi).map hxParse),
                seqOptions ((parts.drop (pl - lo)).map hxParse) with
          | some hs, some ls => some (combineHextets hs (8 - (hi + lo)) ls)
          | _, _ => none
      | _ => none

/-- `ipaddress.IPv6Address(s)`: optional single non-empty `%scope`. -/
def pyIPv6 (s : String) : Option Nat :=
  match splitOnChar '%' s.data with
  | [addr] => pyIPv6Core addr
  | [addr, scope] => if scope.isEmpty then none else pyIPv6Core addr
  | _ => none

inductive IpAddr where
  | v4 (value : Nat)
  | v6 (value : Nat)
deriving DecidableEq

/-- `ipaddress.ip_address(s)`: IPv4 first, then IPv6, else `ValueError`
(modelled as `none`). -/
def parseIp (s : String) : Option IpAddr :=
  match pyIPv4 s with
  | some v => some (IpAddr.v4 v)
  | none =>
    match pyIPv6 s with
    | some v => some (IpAddr.v6 v)
    | none => none

/-- `v` lies in the network `net/p` (width-32 prefix match). -/
def inNet4 (v net p : Nat) : Bool :=
  v / 2 ^ (32 - p) = net / 2 ^ (32 - p)

def ip4 (a b c d : Nat) : Nat := ((a * 256 + b) * 256 + c) * 256 + d

/-- CPython `IPv4Address.is_private` network list. -/
def ipv4IsPrivate (v : Nat) : Bool :=
  inNet4 v (ip4 0 0 0 0) 8 || inNet4 v (ip4 10 0 0 0) 8 ||
  inNet4 v (ip4 127 0 0 0) 8 || inNet4 v (ip4 169 254 0 0) 16 ||
  inNet4 v (ip4 172 16 0 0) 12 || inNet4 v (ip4 192 0 0 0) 29 ||
  inNet4 v (ip4 192 0 0 170) 31 || inNet4 v (ip4 192 0 2 0) 24 ||
  inNet4 v (ip4 192 168 0 0) 16 || inNet4 v (ip4 198 18 0 0) 15 ||
  inNet4 v (ip4 198 51 100 0) 24 || inNet4 v (ip4 203 0 113 0) 24 ||
  inNet4 v (ip4 240 0 0 0) 4 || inNet4 v (ip4 255 255 255 255) 32

def ipv4IsLoopback (v : Nat) : Bool := inNet4 v (ip4 127 0 0 0) 8

def ipv4IsLinkLocal (v : Nat) : Bool := inNet4 v (ip4 169 254 0 0) 16

/-- `v` lies in the network `net/p` (width-128 prefix match). -/
def inNet6 (v net p : Nat) : Bool :=
  v / 2 ^ (128 - p) = net / 2 ^ (128 - p)

/-- CPython `IPv6Address.is_private` network list
(`::1/128`, `::/128`, `::ffff:0:0/96`, `100::/64`, `2001::/23`,
`2001:2::/48`, `2001:db8::/32`, `2001:10::/28`, `fc00::/7`, `fe80::/10`). -/
def ipv6IsPrivate (v : Nat) : Bool :=
  inNet6 v 1 128 || inNet6 v 0 128 || inNet6 v (65535 * 2 ^ 32) 96 ||
  inNet6 v (256 * 65536 ^ 6) 64 || inNet6 v (8193 * 65536 ^ 7) 23 ||
  inNet6 v (8193 * 65536 ^ 7 + 2 * 65536 ^ 6) 48 ||
  inNet6 v (8193 * 65536 ^ 7 + 3512 * 65536 ^ 6) 32 ||
  inNet6 v (8193 * 65536 ^ 7 + 16 * 65536 ^ 6) 28 ||
  inNet6 v (64512 * 65536 ^ 7) 7 || inNet6 v (65152 * 65536 ^ 7) 10

def ipv6IsLoopback (v : Nat) : Bool := v = 1

def ipv6IsLinkLocal (v : Nat) : Bool := inNet6 v (65152 * 65536 ^ 7) 10

/-- middleware.py `is_private_ip`: parse with `ipaddress.ip_address`,
return `is_private or is_loopback or is_link_local`; a `ValueError`
(unparseable input) is caught and the IP treated as private. -/
def is_private_ip (s : String) : Bool :=
  match parseIp s with
  | none => true
  | some (IpAddr.v4 v) => ipv4IsPrivate v || ipv4IsLoopback v || ipv4IsLinkLocal v
  | some (IpAddr.v6 v) => ipv6IsPrivate v || ipv6IsLoopback v || ipv6IsLinkLocal v

/-! ## Data model (models.py) -/

/-- models.py `RequestLog`: one row per allowed request. -/
structure RequestLog where
  ip_address : String
  timestamp : Int
  path : String
  country : Option String := none
  city : Option String := none
deriving DecidableEq, Repr

/-- models.py `BlockedIP`: `ip_address` is unique. -/
structure BlockedIPEntry where
  ip_address : String
  reason : String := ""
deriving DecidableEq, Repr

/-- models.py `SuspiciousIP`: `ip_address` is unique. -/
structure SuspiciousIP where
  ip_address : String
  reason : String
deriving DecidableEq, Repr

/-- Geolocation result: middleware.py's `geo_data` dict
`{'country': ..., 'city': ...}` with `None` as `none`. -/
structure GeoData where
  country : Option String := none
  city : Option String := none
deriving DecidableEq, Repr

/-! ## Geolocation fallback (middleware.py `fetch_geolocation`) -/

/-- One entry of middleware.py's `apis` list: per-provider field names and
success-signal convention. -/
structure ApiSpec where
  country_key : String
  city_key : String
  status_key : Option String := none
  success_value : Option String := none
  error_key : Option String := none
deriving DecidableEq, Repr

/-- `http://ip-api.com/json/<ip>` descriptor. -/
def api1 : ApiSpec :=
  { country_key := "country", city_key := "city",
    status_key := some "status", success_value := some "success" }

/-- `https://ipapi.co/<ip>/json/` descriptor. -/
def api2 : ApiSpec :=
  { country_key := "country_name", city_key := "city", error_key := some "error" }

/-- `http://www.geoplugin.net/json.gp?ip=<ip>` descriptor. -/
def api3 : ApiSpec :=
  { country_key := "geoplugin_countryName", city_key := "geoplugin_city" }

def apis : List ApiSpec := [api1, api2, api3]

/-- Outcome of one `requests.get` to a provider: a raised
`RequestException` (or a body that fails JSON parsing), or an HTTP
response with status code and parsed JSON body.  JSON field values are
strings; an absent key is an absent pair, and `""` models a falsy value. -/
inductive NetOutcome where
  | exn
  | resp (code : Nat) (data : List (String × String))
deriving DecidableEq, Repr

/-- Python truthiness of a looked-up field plus the `!= 'None'` check the
code applies to extracted country/city values. -/
def goodVal : Option String → Bool
  | none => false
  | some s => s ≠ "" && s ≠ "None"

/-- `if api.get('error_key') and data.get(api['error_key']): continue`. -/
def errSkip (api : ApiSpec) (data : List (String × String)) : Bool :=
  match api.error_key with
  | none => false
  | some k => truthyStr (lookupAssoc data k)

/-- `if api.get('status_key'): if data.get(...) != api.get('success_value'): continue`. -/
def statusSkip (api : ApiSpec) (data : List (String × String)) : Bool :=
  match api.status_key with
  | none => false
  | some k => lookupAssoc data k ≠ api.success_value

/-- The two field-extraction `if`s of `fetch_geolocation`:
`if country and country != 'None'` then store it, likewise for city. -/
def applyResp (geo : GeoData) (api : ApiSpec) (data : List (String × String)) : GeoData :=
  let country := lookupAssoc data api.country_key
  let city := lookupAssoc data api.city_key
  let g1 := if goodVal country then { geo with country := country } else geo
  if goodVal city then { g1 with city := city } else g1

/-- The provider loop of `fetch_geolocation`, paired with the number of
`requests.get` calls issued.  Every iteration issues one network call;
non-200, provider-reported error, wrong status, request exception and
parse failure each `continue`; after extraction the loop breaks as soon
as `geo_data['country']` is truthy. -/
def fetchLoop (geo : GeoData) : List (ApiSpec × NetOutcome) → GeoData × Nat
  | [] => (geo, 0)
  | p :: rest =>
    match p.2 with
    | NetOutcome.exn =>
      let r := fetchLoop geo rest
      (r.1, r.2 + 1)
    | NetOutcome.resp code data =>
      if code ≠ 200 then
        let r := fetchLoop geo rest
        (r.1, r.2 + 1)
      else if errSkip p.1 data then
        let r := fetchLoop geo rest
        (r.1, r.2 + 1)
      else if statusSkip p.1 data then
        let r := fetchLoop geo rest
        (r.1, r.2 + 1)
      else
        let g2 := applyResp geo p.1 data
        if truthyStr g2.country then (g2, 1)
        else
          let r := fetchLoop g2 rest
          (r.1, r.2 + 1)

/-- middleware.py `fetch_geolocation`: start from `{None, None}`, walk the
three providers (the environment's behaviour per provider is `outs`),
return the result and the number of network calls made. -/
def fetch_geolocation (outs : List NetOutcome) : GeoData × Nat :=
  fetchLoop {} (apis.zip outs)

/-! ## Middleware state and pipeline -/

/-- Shared mutable world of the middleware and the management command:
the two database tables the claims touch, the Django cache (block keys
and geolocation keys live in the same cache; they are kept as separate
association lists because their value types differ and their key
namespaces `blocked_ip_*` / `geolocation_*` are disjoint), the request
log table, and the `ip_tracking` logger's output by level. -/
structure MWState where
  blockedIPs : List BlockedIPEntry := []
  blockCache : List (String × Bool) := []
  geoCache : List (String × GeoData) := []
  requestLogs : List RequestLog := []
  warnings : List String := []
  errors : List String := []
  infos : List String := []
deriving DecidableEq, Repr

/-- An incoming Django request as the middleware sees it:
`request.META` holds the two headers and the peer address
(`None` when absent), and `request.get_full_path()` is `fullPath`. -/
structure HttpRequest where
  xForwardedFor : Option String := none
  xRealIp : Option String := none
  remoteAddr : Option String := none
  fullPath : String := "/"
deriving DecidableEq, Repr

/-- middleware.py `get_client_ip`: X-Forwarded-For first segment
(trimmed) when truthy, else trimmed X-Real-IP when truthy, else
`META.get('REMOTE_ADDR', '0.0.0.0')`. -/
def get_client_ip (req : HttpRequest) : String :=
  if truthyStr req.xForwardedFor then
    pyStrip (firstSplit (req.xForwardedFor.getD "") ',')
  else if truthyStr req.xRealIp then
    pyStrip (req.xRealIp.getD "")
  else
    req.remoteAddr.getD "0.0.0.0"

/-- middleware.py `is_ip_blocked`: cache-first membership check against
`BlockedIP`, caching the boolean (5-minute TTL not modelled). -/
def is_ip_blocked (ip : String) (st : MWState) : Bool × MWState :=
  let key := "blocked_ip_" ++ ip
  match lookupAssoc st.blockCache key with
  | some b => (b, st)
  | none =>
    let b := st.blockedIPs.any (fun e => e.ip_address = ip)
    (b, { st with blockCache := setAssoc st.blockCache key b })

/-- Count of cache reads / cache writes / network calls performed by one
`get_geolocation` call. -/
structure GeoTrace where
  cacheReads : Nat
  cacheWrites : Nat
  netCalls : Nat
deriving DecidableEq, Repr

/-- middleware.py `get_geolocation`: private/loopback/link-local IPs
short-circuit to `{None, None}` before the cache; otherwise cache-first
with `fetch_geolocation` on a miss, caching even an all-`None` result. -/
def get_geolocation (ip : String) (outs : List NetOutcome)
    (gc : List (String × GeoData)) : GeoData × List (String × GeoData) × GeoTrace :=
  if is_private_ip ip then ({}, gc, ⟨0, 0, 0⟩)
  else
    let key := "geolocation_" ++ ip
    match lookupAssoc gc key with
    | some g => (g, gc, ⟨1, 0, 0⟩)
    | none =>
      let r := fetch_geolocation outs
      (r.1, setAssoc gc key r.1, ⟨1, 1, r.2⟩)

inductive HttpResp where
  | forbidden (body : String)
deriving DecidableEq, Repr

/-- The fixed `HttpResponseForbidden` body of `process_request`. -/
def forbiddenBody : String :=
  "<h1>403 Forbidden</h1><p>Your IP address has been blocked.</p>"

def pushWarning (st : MWState) (m : String) : MWState :=
  { st with warnings := st.warnings ++ [m] }

/-- The `except Exception` branch of `process_request`:
`self.logger.error(f"Error processing request: ...")`, then `return None`. -/
def pushError (st : MWState) : MWState :=
  { st with errors := st.errors ++ ["Error processing request"] }

def pushInfo (st : MWState) (m : String) : MWState :=
  { st with infos := st.infos ++ [m] }

/-- Injected collaborator failures: an exception raised inside the block
check (cache access), the geolocation stage (cache access; provider
errors are already absorbed inside `fetch_geolocation`), or the
`RequestLog.objects.create` persistence call.  `get_client_ip` performs
only dictionary reads and cannot raise. -/
structure Faults where
  blockCheck : Bool := false
  geo : Bool := false
  persist : Bool := false
deriving DecidableEq, Repr

/-- middleware.py `process_request`: the whole body runs inside
`try ... except Exception`, which logs an error and returns `None`.
A true fault flag makes the corresponding stage raise; the exception
propagates to that handler.  Returns the middleware's return value
(`None` to continue, or the 403 response) and the updated world. -/
def process_request (f : Faults) (req : HttpRequest) (outs : List NetOutcome)
    (now : Int) (st : MWState) : Option HttpResp × MWState :=
  let ip := get_client_ip req
  if f.blockCheck then (none, pushError st)
  else
    let bc := is_ip_blocked ip st
    if bc.1 then
      (some (HttpResp.forbidden forbiddenBody),
       pushWarning bc.2 ("Blocked request from IP: " ++ ip ++ ", Path: " ++ req.fullPath))
    else if f.geo then (none, pushError bc.2)
    else
      let gr := get_geolocation ip outs bc.2.geoCache
      let st2 := { bc.2 with geoCache := gr.2.1 }
      if f.persist then (none, pushError st2)
      else
        let entry : RequestLog :=
          { ip_address := ip, timestamp := now, path := req.fullPath,
            country := gr.1.country, city := gr.1.city }
        let st3 := { st2 with requestLogs := st2.requestLogs ++ [entry] }
        (none, pushInfo st3 ("Request logged: IP=" ++ ip ++ ", Path=" ++ req.fullPath))

/-! ## Suspicious-activity detector (tasks.py) -/

/-- Names bound in tasks.py's module namespace: its four imports and the
function it defines.  Any other global name raises `NameError` when
evaluated. -/
def tasksModuleNames : List String :=
  ["shared_task", "timezone", "timedelta", "RequestLog", "SuspiciousIP",
   "detect_suspicious_ips"]

/-- `SuspiciousIP.objects.get_or_create(ip_address=ip, defaults={...})`:
create the row only when no row with that `ip_address` exists; an
existing row is returned untouched (`defaults` ignored). -/
def getOrCreateSusp (susp : List SuspiciousIP) (ip reason : String) : List SuspiciousIP :=
  if susp.any (fun e => e.ip_address = ip) then susp
  else susp ++ [{ ip_address := ip, reason := reason }]

/-- The distinct IPs of `values('ip_address')` group-by, in order of first
appearance. -/
def distinctIps (logs : List RequestLog) : List String :=
  logs.foldl
    (fun acc l => if acc.contains l.ip_address then acc else acc ++ [l.ip_address])
    []

/-- The body of `detect_suspicious_ips` as written from line 14 on,
evaluated as if the group-by expression were reachable: filter the last
hour, flag IPs with more than 100 requests, then flag IPs that accessed
`/admin` or `/login`, each via `get_or_create`. -/
def detectBody (oneHourAgo : Int) (logs : List RequestLog)
    (susp : List SuspiciousIP) : List SuspiciousIP :=
  let recent := logs.filter (fun l => oneHourAgo ≤ l.timestamp)
  let counts := (distinctIps recent).map
    (fun ip => (ip, (recent.filter (fun l => l.ip_address = ip)).length))
  let susp1 := counts.foldl
    (fun acc p =>
      if p.2 > 100 then
        getOrCreateSusp acc p.1 (toString p.2 ++ " requests in the last hour")
      else acc)
    susp
  let sens := recent.filter (fun l => l.path = "/admin" || l.path = "/login")
  sens.foldl
    (fun acc l => getOrCreateSusp acc l.ip_address ("Accessed sensitive path: " ++ l.path))
    susp1

/-- tasks.py `detect_suspicious_ips`: the statement
`.annotate(count=models.Count('id'))` on line 21 evaluates the global
name `models`, which tasks.py never imports, so every call raises
`NameError: name 'models' is not defined` before any query result is
consumed or any row written.  Were the name bound by the missing
`from django.db import models` line, the run would execute `detectBody`. -/
def detect_suspicious_ips (now : Int) (logs : List RequestLog)
    (susp : List SuspiciousIP) : Except String (List SuspiciousIP) :=
  let oneHourAgo := now - 3600
  if tasksModuleNames.contains "models" then Except.ok (detectBody oneHourAgo logs susp)
  else Except.error "NameError: name 'models' is not defined"

/-! ## Rate-limited login endpoint (views.py)

`login_view` carries two `@ratelimit` decorators, both `method='POST'`,
`block=True`.  The outer one is `key='ip'`, rate `5/m`; the inner one is
`key=user_or_ip`, rate `10/m`.  django-ratelimit keeps one counter per
(group, rate, key-value, window) — the rate is part of the cache key, so
the two decorators count independently even when their key values
coincide.  A request first hits the outer limiter: its counter is
incremented and the request is rejected if the count exceeds 5; only
then does the inner limiter increment its counter and reject above 10.
All requests modelled fall inside one 60-second window. -/

/-- A POST client: `request.user.pk` when authenticated, and
`request.META['REMOTE_ADDR']`. -/
structure Client where
  userId : Option Nat := none
  remoteAddr : String
deriving DecidableEq, Repr

/-- views.py `user_or_ip`: user pk as a string when authenticated, else
the remote address. -/
def user_or_ip (c : Client) : String :=
  match c.userId with
  | some pk => toString pk
  | none => c.remoteAddr

/-- Counters of the two limiters within the current window. -/
structure RLState where
  ipHits : List (String × Nat) := []
  uoiHits : List (String × Nat) := []
deriving DecidableEq, Repr

/-- `cache.incr`: bump the counter for a key, returning the new count. -/
def bumpCounter (l : List (String × Nat)) (k : String) : Nat × List (String × Nat) :=
  let n := (lookupAssoc l k).getD 0 + 1
  (n, setAssoc l k n)

/-- One POST to `login_view`: `true` when the request reaches the view
body (and is answered 200), `false` when either limiter rejects it. -/
def login_view_post (c : Client) (st : RLState) : Bool × RLState :=
  let b1 := bumpCounter st.ipHits c.remoteAddr
  if b1.1 > 5 then (false, { st with ipHits := b1.2 })
  else
    let b2 := bumpCounter st.uoiHits (user_or_ip c)
    if b2.1 > 10 then (false, { st with ipHits := b1.2, uoiHits := b2.2 })
    else (true, { st with ipHits := b1.2, uoiHits := b2.2 })

/-- Outcomes, in order, of a burst of POSTs within one window. -/
def runPosts : List Client → RLState → List Bool
  | [], _ => []
  | c :: cs, st =>
    let r := login_view_post c st
    r.1 :: runPosts cs r.2

/-! ## Management command (block_ip.py) -/

inductive CmdMsg where
  | success (m : String)
  | warning (m : String)
  | plain (m : String)
deriving DecidableEq, Repr

/-- Django `validate_ipv46_address`: valid IPv4 or valid IPv6. -/
def validIp46 (s : String) : Bool :=
  (parseIp s).isSome

/-- block_ip.py `Command.handle`: validate the IP (a `CommandError`
aborts with no state change); `--unblock` deletes the row if present and
deletes the cache key; otherwise `get_or_create` the row, proactively
cache `True` on creation, or warn and optionally update the reason. -/
def commandHandle (ipAddress reason : String) (unblock : Bool) (st : MWState) :
    Except String (MWState × List CmdMsg) :=
  if ¬ validIp46 ipAddress then
    Except.error ("\"" ++ ipAddress ++ "\" is not a valid IP address.")
  else if unblock then
    if st.blockedIPs.any (fun e => e.ip_address = ipAddress) then
      Except.ok
        ({ st with
            blockedIPs := st.blockedIPs.filter (fun e => e.ip_address ≠ ipAddress),
            blockCache := removeAssoc st.blockCache ("blocked_ip_" ++ ipAddress) },
         [CmdMsg.success ("Successfully unblocked IP address: " ++ ipAddress)])
    else
      Except.ok (st,
        [CmdMsg.warning ("IP address " ++ ipAddress ++ " was not in the blocked list.")])
  else
    match st.blockedIPs.find? (fun e => e.ip_address = ipAddress) with
    | none =>
      Except.ok
        ({ st with
            blockedIPs := st.blockedIPs ++ [{ ip_address := ipAddress, reason := reason }],
            blockCache := setAssoc st.blockCache ("blocked_ip_" ++ ipAddress) true },
         [CmdMsg.success ("Successfully blocked IP address: " ++ ipAddress)] ++
           (if reason ≠ "" then [CmdMsg.plain ("Reason: " ++ reason)] else []))
    | some e =>
      if reason ≠ "" ∧ e.reason ≠ reason then
        Except.ok
          ({ st with
              blockedIPs := st.blockedIPs.map
                (fun x => if x.ip_address = ipAddress then { x with reason := reason } else x) },
           [CmdMsg.warning ("IP address " ++ ipAddress ++ " is already blocked."),
            CmdMsg.plain ("Updated reason: " ++ reason)])
      else
        Except.ok (st,
          [CmdMsg.warning ("IP address " ++ ipAddress ++ " is already blocked.")])

/-! ## Spec-side definitions for the IP-resolver claim -/

/-- The resolver exactly as the claim words it: the substring of
X-Forwarded-For before the first comma, trimmed, when that header is
present and non-empty; else the trimmed X-Real-IP when present; else the
peer address, or `0.0.0.0` when unavailable. -/
def get_client_ip_claim (req : HttpRequest) : String :=
  match req.xForwardedFor with
  | some x =>
    if x ≠ "" then pyStrip (firstSplit x ',')
    else
      match req.xRealIp with
      | some y => pyStrip y
      | none => req.remoteAddr.getD "0.0.0.0"
  | none =>
    match req.xRealIp with
    | some y => pyStrip y
    | none => req.remoteAddr.getD "0.0.0.0"

/-- The resolver as the amended claim words it: as above, but the
X-Real-IP branch requires the header to be present and non-empty. -/
def get_client_ip_amended (req : HttpRequest) : String :=
  match req.xForwardedFor with
  | some x =>
    if x ≠ "" then pyStrip (firstSplit x ',')
    else
      match req.xRealIp with
      | some y => if y ≠ "" then pyStrip y else req.remoteAddr.getD "0.0.0.0"
      | none => req.remoteAddr.getD "0.0.0.0"
  | none =>
    match req.xRealIp with
    | some y => if y ≠ "" then pyStrip y else req.remoteAddr.getD "0.0.0.0"
    | none => req.remoteAddr.getD "0.0.0.0"

/-! ## Helper lemmas -/

/-- `is_ip_blocked` touches only the block cache: the request log, the
warning trail and the geolocation cache of the state are unchanged. -/
theorem is_ip_blocked_frame (ip : String) (st : MWState) :
    (is_ip_blocked ip st).2.requestLogs = st.requestLogs ∧
    (is_ip_blocked ip st).2.warnings = st.warnings ∧
    (is_ip_blocked ip st).2.geoCache = st.geoCache := by
  cases h : lookupAssoc st.blockCache ("blocked_ip_" ++ ip) <;>
    simp [is_ip_blocked, h]

/-- Deleting a cache key makes its lookup miss. -/
theorem lookupAssoc_removeAssoc {α : Type} (l : List (String × α)) (k : String) :
    lookupAssoc (removeAssoc l k) k = none := by
  induction l with
  | nil => rfl
  | cons p t ih =>
    by_cases h : p.1 = k
    · simpa [removeAssoc, h] using ih
    · simpa [removeAssoc, lookupAssoc, List.find?, h] using ih

/-- A fold preserves any property its step preserves. -/
theorem foldl_preserve {α β : Type} (P : β → Prop) (f : β → α → β)
    (h : ∀ b a, P b → P (f b a)) : ∀ (l : List α) (b : β), P b → P (l.foldl f b) := by
  intro l
  induction l with
  | nil => exact fun b hb => hb
  | cons a t ih => exact fun b hb => ih (f b a) (h b a hb)

/-- The row `get_or_create` finds for an IP is the row already there. -/
theorem find_getOrCreateSusp (susp : List SuspiciousIP) (ip ip' r : String)
    (e : SuspiciousIP) (h : susp.find? (fun x => x.ip_address = ip) = some e) :
    (getOrCreateSusp susp ip' r).find? (fun x => x.ip_address = ip) = some e := by
  unfold getOrCreateSusp
  split
  · exact h
  · rw [List.find?_append, h]
    rfl

/-- `get_or_create` preserves uniqueness of `ip_address`. -/
theorem nodup_getOrCreateSusp (susp : List SuspiciousIP) (ip r : String)
    (h : (susp.map (fun e => e.ip_address)).Nodup) :
    ((getOrCreateSusp susp ip r).map (fun e => e.ip_address)).Nodup := by
  unfold getOrCreateSusp
  split
  · exact h
  · rename_i hany
    rw [List.map_append, List.nodup_append]
    refine ⟨h, by simp, ?_⟩
    intro a ha hb
    simp only [List.map_cons, List.map_nil, List.mem_singleton] at hb
    subst hb
    simp only [List.mem_map] at ha
    obtain ⟨x, hx, hxa⟩ := ha
    exact hany (by simp only [List.any_eq_true]; exact ⟨x, hx, by simp [hxa]⟩)

/-- A value that passed the `and ... != 'None'` filter is Python-truthy. -/
theorem goodVal_truthy (o : Option String) (h : goodVal o = true) : truthyStr o = true := by
  cases o with
  | none => simp [goodVal] at h
  | some s =>
    simp only [goodVal, Bool.and_eq_true, decide_eq_true_eq] at h
    simp [truthyStr, h.1]

/-- A provider response that stores no country and no city leaves
`geo_data` unchanged. -/
theorem applyResp_id (geo : GeoData) (api : ApiSpec) (data : List (String × String))
    (hc : goodVal (lookupAssoc data api.country_key) = false)
    (hy : goodVal (lookupAssoc data api.city_key) = false) :
    applyResp geo api data = geo := by
  unfold applyResp
  simp [hc, hy]

/-- When a provider stores a country, the extracted country value is the
result's country. -/
theorem applyResp_country (geo : GeoData) (api : ApiSpec) (data : List (String × String))
    (hc : goodVal (lookupAssoc data api.country_key) = true) :
    (applyResp geo api data).country = lookupAssoc data api.country_key := by
  unfold applyResp
  simp only [hc, if_true]
  split <;> rfl

/-- An accepted provider response that yields a (truthy, non-`'None'`)
city without yielding a country — the only way `fetch_geolocation` can
produce a city with no country. -/
def acceptedCitySansCountry (api : ApiSpec) (oc : NetOutcome) : Bool :=
  match oc with
  | NetOutcome.exn => false
  | NetOutcome.resp code data =>
    code = 200 && !errSkip api data && !statusSkip api data &&
      goodVal (lookupAssoc data api.city_key) &&
      !goodVal (lookupAssoc data api.country_key)

/-- Provider-loop invariant: as long as no provider response in the
remaining list is an accepted city-without-country response, a loop
result without a country has no city either. -/
theorem fetchLoop_no_city_sans_country (l : List (ApiSpec × NetOutcome)) :
    ∀ geo : GeoData,
      (∀ p ∈ l, acceptedCitySansCountry p.1 p.2 = false) →
      (geo.country = none → geo.city = none) →
      ((fetchLoop geo l).1.country = none → (fetchLoop geo l).1.city = none) := by
  induction l with
  | nil => exact fun geo _ hg => hg
  | cons p rest ih =>
    obtain ⟨api, oc⟩ := p
    intro geo hl hg
    have hrest : ∀ q ∈ rest, acceptedCitySansCountry q.1 q.2 = false :=
      fun q hq => hl q (List.mem_cons_of_mem _ hq)
    have hp : acceptedCitySansCountry api oc = false :=
      hl ⟨api, oc⟩ (List.mem_cons_self _ _)
    cases oc with
    | exn => exact ih geo hrest hg
    | resp code data =>
      simp only [fetchLoop]
      split
      · exact ih geo hrest hg
      · split
        · exact ih geo hrest hg
        · split
          · exact ih geo hrest hg
          · rename_i h200 herr hst
            split
            · rename_i htr
              intro hcn
              rw [hcn] at htr
              simp [truthyStr] at htr
            · rename_i htr
              by_cases hgc : goodVal (lookupAssoc data api.country_key) = true
              · exact absurd
                  (by rw [applyResp_country geo api data hgc]
                      exact goodVal_truthy _ hgc)
                  htr
              · rw [Bool.not_eq_true] at hgc
                have hcode : code = 200 := not_not.mp h200
                rw [Bool.not_eq_true] at herr hst
                have hgy : goodVal (lookupAssoc data api.city_key) = false := by
                  simp only [acceptedCitySansCountry, hcode, herr, hst, hgc,
                    Bool.not_false, Bool.and_true, decide_True, Bool.true_and,
                    Bool.not_true, Bool.and_false, Bool.false_and] at hp
                  simpa using hp
                rw [applyResp_id geo api data hgc hgy]
                exact ih geo hrest hg

/-! ## Concrete fixtures used by witnesses and counterexamples -/

/-- An authenticated user (pk 1) posting from one public IP. -/
def authClient : Client := { userId := some 1, remoteAddr := "233.252.0.9" }

/-- An anonymous client posting from the same IP. -/
def anonClient : Client := { remoteAddr := "233.252.0.9" }

/-- The same authenticated user posting each request from a fresh IP, so
only the user-keyed limiter can bind. -/
def authDistinctIps (n : Nat) : List Client :=
  (List.range n).map (fun i => { userId := some 1, remoteAddr := "10.0.0." ++ toString i })

/-- 150 requests from one IP inside the detector's one-hour window. -/
def highVolumeLogs : List RequestLog :=
  (List.range 150).map
    (fun i => { ip_address := "233.252.0.7", timestamp := (1000000 : Int) - i, path := "/" })

/-- Provider outcomes: the first provider answers 200 with
`status: success` and a city but no country field; the other two raise. -/
def cityOnlyOuts : List NetOutcome :=
  [NetOutcome.resp 200 [("status", "success"), ("city", "Paris")],
   NetOutcome.exn, NetOutcome.exn]

/-- A state whose blocklist holds `5.5.5.5` and a request from that IP. -/
def blockedState : MWState := { blockedIPs := [{ ip_address := "5.5.5.5" }] }

def blockedReq : HttpRequest := { xForwardedFor := some "5.5.5.5", fullPath := "/admin" }

/-- A state where `1.2.3.4` is blocked durably and a stale cache entry
still marks it blocked. -/
def staleState : MWState :=
  { blockedIPs := [{ ip_address := "1.2.3.4", reason := "abuse" }],
    blockCache := [("blocked_ip_1.2.3.4", true)] }

/-- A request whose X-Real-IP header is present but empty. -/
def emptyRealIpReq : HttpRequest := { xRealIp := some "", remoteAddr := some "9.9.9.9" }

/-! ## C1 — login rate limiting -/

/-- C1 counterexample: with both decorators active, an authenticated user
posting 10 times within one minute from a single IP is rejected from the
6th POST on by the outer `key='ip', rate='5/m'` limiter — the claim's
"all 10 allowed, only the 11th rejected" is false on the code. -/
theorem login_rate_limit_auth_sixth_rejected :
    runPosts (List.replicate 10 authClient) {} =
      [true, true, true, true, true, false, false, false, false, false] ∧
    runPosts (List.replicate 10 authClient) {} ≠ List.replicate 10 true := by
  constructor
  · rfl
  · decide

/-- C1 amended: 6 anonymous POSTs from one IP within the window — the
6th is rejected (as claimed); an authenticated user's 10 POSTs are all
allowed with the 11th rejected only when the IP-keyed 5/minute limiter
does not bind (requests from distinct IPs); from a single IP the
authenticated user is likewise rejected from the 6th POST on. -/
theorem login_rate_limit_amended :
    runPosts (List.replicate 6 anonClient) {} = [true, true, true, true, true, false] ∧
    runPosts (authDistinctIps 11) {} = List.replicate 10 true ++ [false] ∧
    runPosts (List.replicate 6 authClient) {} = [true, true, true, true, true, false] := by
  refine ⟨rfl, ?_, rfl⟩
  decide

/-! ## C2 — suspicious-activity detector run -/

set_option maxRecDepth 40000 in
/-- C2: every run of `detect_suspicious_ips` raises
`NameError: name 'models' is not defined` (tasks.py line 21 reads the
never-imported global `models`), so the run does not complete and writes
no `SuspiciousIP` — here evaluated on 150 same-IP requests inside the
hour.  The function body itself, were the name bound, would create
exactly one entry with reason `"150 requests in the last hour"` and a
second run would leave it unchanged. -/
theorem detect_suspicious_ips_name_error :
    detect_suspicious_ips 1000000 highVolumeLogs [] =
      Except.error "NameError: name 'models' is not defined" ∧
    detectBody (1000000 - 3600) highVolumeLogs [] =
      [{ ip_address := "233.252.0.7", reason := "150 requests in the last hour" }] ∧
    detectBody (1000000 - 3600) highVolumeLogs
        (detectBody (1000000 - 3600) highVolumeLogs []) =
      [{ ip_address := "233.252.0.7", reason := "150 requests in the last hour" }] :=
  ⟨rfl, rfl, rfl⟩

/-! ## C3 — geolocation both-or-partial invariant -/

/-- C3 counterexample: when the first provider's accepted response
carries a city but no country and the remaining providers fail,
`fetch_geolocation` returns country `None` with city `"Paris"` — the
claimed impossibility of a city without a country does not hold. -/
theorem fetch_geolocation_city_without_country :
    (fetch_geolocation cityOnlyOuts).1.country = none ∧
    (fetch_geolocation cityOnlyOuts).1.city = some "Paris" := ⟨rfl, rfl⟩

/-- C3 amended: a city can outlive an absent country only via an accepted
provider response carrying a city but no usable country; whenever no
provider response is of that shape, a result without a country has no
city (and a result with a country may still lack a city). -/
theorem fetch_geolocation_no_city_sans_country
    (outs : List NetOutcome)
    (h : ∀ p ∈ apis.zip outs, acceptedCitySansCountry p.1 p.2 = false) :
    (fetch_geolocation outs).1.country = none →
    (fetch_geolocation outs).1.city = none := by
  unfold fetch_geolocation
  exact fetchLoop_no_city_sans_country (apis.zip outs) {} h (fun _ => rfl)

/-- Witness for the amended C3 theorem: all three providers fail, the
hypothesis holds, and the theorem yields an absent city. -/
theorem fetch_geolocation_no_city_sans_country_witness :
    (fetch_geolocation [NetOutcome.exn, NetOutcome.exn, NetOutcome.exn]).1.city = none :=
  fetch_geolocation_no_city_sans_country
    [NetOutcome.exn, NetOutcome.exn, NetOutcome.exn] (by decide) (by decide)

/-! ## C5 — client-IP resolution -/

/-- C5 counterexample: with X-Forwarded-For absent and X-Real-IP present
but empty, the code falls through to `REMOTE_ADDR` (`"9.9.9.9"`) while
the claim's words ("the trimmed X-Real-IP when present") demand `""`. -/
theorem get_client_ip_empty_real_ip_counterexample :
    get_client_ip emptyRealIpReq = "9.9.9.9" ∧
    get_client_ip_claim emptyRealIpReq = "" ∧
    get_client_ip emptyRealIpReq ≠ get_client_ip_claim emptyRealIpReq := by
  refine ⟨rfl, rfl, ?_⟩
  decide

/-- C5 amended: the resolver equals the claim with the X-Real-IP branch
restricted to a present **and non-empty** header; in particular
`X-Forwarded-For: "a, b, c"` resolves to `"a"`, and the resolver is a
total function (it always returns a string; no exception is modelled
because none can escape). -/
theorem get_client_ip_matches_amended :
    (∀ req : HttpRequest, get_client_ip req = get_client_ip_amended req) ∧
    get_client_ip { xForwardedFor := some "a, b, c" } = "a" := by
  constructor
  · intro req
    obtain ⟨xff, xri, ra, p⟩ := req
    cases xff with
    | none =>
      cases xri with
      | none => rfl
      | some y =>
        by_cases hy : y = "" <;>
          simp [get_client_ip, get_client_ip_amended, truthyStr, hy]
    | some x =>
      by_cases hx : x = ""
      · cases xri with
        | none => simp [get_client_ip, get_client_ip_amended, truthyStr, hx]
        | some y =>
          by_cases hy : y = "" <;>
            simp [get_client_ip, get_client_ip_amended, truthyStr, hx, hy]
      · simp [get_client_ip, get_client_ip_amended, truthyStr, hx]
  · rfl

/-! ## C8 — private IPs bypass geolocation entirely -/

/-- C8: for every IP classified private, loopback or link-local,
`get_geolocation` returns `{None, None}` at once: the cache is neither
read nor written and no provider is called (trace `⟨0, 0, 0⟩`), whatever
the network would have answered. -/
theorem private_ip_geo_short_circuit (ip : String) (outs : List NetOutcome)
    (gc : List (String × GeoData)) (h : is_private_ip ip = true) :
    get_geolocation ip outs gc = ({}, gc, ⟨0, 0, 0⟩) := by
  unfold get_geolocation
  simp [h]

/-- Witness: `127.0.0.1` (and the scenario's `10.0.0.5`) is classified
private and short-circuits. -/
theorem private_ip_geo_short_circuit_witness :
    is_private_ip "127.0.0.1" = true ∧ is_private_ip "10.0.0.5" = true ∧
    get_geolocation "127.0.0.1"
        [NetOutcome.resp 200 [("status", "success"), ("country", "France")]] [] =
      ({}, [], ⟨0, 0, 0⟩) :=
  ⟨by decide, by decide,
   private_ip_geo_short_circuit "127.0.0.1"
     [NetOutcome.resp 200 [("status", "success"), ("country", "France")]] [] (by decide)⟩

/-! ## C10 — malformed IP strings are treated as private -/

/-- C10: any string `ipaddress.ip_address` cannot parse is classified
private (the `ValueError` is caught), so `get_geolocation` on it returns
`{None, None}` without touching the cache or the network. -/
theorem malformed_ip_treated_private (s : String) (outs : List NetOutcome)
    (gc : List (String × GeoData)) (h : parseIp s = none) :
    is_private_ip s = true ∧ get_geolocation s outs gc = ({}, gc, ⟨0, 0, 0⟩) := by
  have hp : is_private_ip s = true := by
    unfold is_private_ip
    rw [h]
  refine ⟨hp, ?_⟩
  unfold get_geolocation
  simp [hp]

/-- Witness: `"not-an-ip"` parses as neither IPv4 nor IPv6. -/
theorem malformed_ip_treated_private_witness :
    is_private_ip "not-an-ip" = true ∧
    get_geolocation "not-an-ip" [NetOutcome.exn] [] = ({}, [], ⟨0, 0, 0⟩) :=
  malformed_ip_treated_private "not-an-ip" [NetOutcome.exn] [] (by decide)

/-! ## C4 — blocked requests: 403, warning, no log entry -/

/-- C4: when the block check runs (no cache fault) and reports the
resolved IP as blocked, `process_request` returns the 403 response with
the fixed body, appends exactly the warning naming the IP and the path,
and leaves the request-log table unchanged — whatever the geolocation
and persistence collaborators would have done. -/
theorem blocked_request_403_no_log (f : Faults) (req : HttpRequest)
    (outs : List NetOutcome) (now : Int) (st : MWState)
    (hf : f.blockCheck = false)
    (hb : (is_ip_blocked (get_client_ip req) st).1 = true) :
    (process_request f req outs now st).1 = some (HttpResp.forbidden forbiddenBody) ∧
    (process_request f req outs now st).2.requestLogs = st.requestLogs ∧
    (process_request f req outs now st).2.warnings =
      st.warnings ++
        ["Blocked request from IP: " ++ get_client_ip req ++ ", Path: " ++ req.fullPath] := by
  obtain ⟨h1, h2, h3⟩ := is_ip_blocked_frame (get_client_ip req) st
  refine ⟨?_, ?_, ?_⟩ <;>
    simp [process_request, hf, hb, pushWarning, h1, h2]

/-- Witness for C4: a request from the blocked IP `5.5.5.5`. -/
theorem blocked_request_403_no_log_witness :
    (process_request {} blockedReq [] 7 blockedState).1 =
      some (HttpResp.forbidden forbiddenBody) ∧
    (process_request {} blockedReq [] 7 blockedState).2.requestLogs =
      blockedState.requestLogs ∧
    (process_request {} blockedReq [] 7 blockedState).2.warnings =
      blockedState.warnings ++
        ["Blocked request from IP: " ++ get_client_ip blockedReq ++ ", Path: " ++
          blockedReq.fullPath] :=
  blocked_request_403_no_log {} blockedReq [] 7 blockedState (by decide) (by decide)

/-! ## C6 — no unhandled failure escapes the request path -/

/-- C6: for every request, provider behaviour, state and combination of
collaborator faults (block-cache access, geolocation cache access,
log persistence), `process_request` returns `None` or the intentional
403 — the surrounding `try/except Exception` absorbs everything else. -/
theorem process_request_no_unhandled (f : Faults) (req : HttpRequest)
    (outs : List NetOutcome) (now : Int) (st : MWState) :
    (process_request f req outs now st).1 = none ∨
    (process_request f req outs now st).1 = some (HttpResp.forbidden forbiddenBody) := by
  rcases f with ⟨fb, fg, fp⟩
  cases hb : (is_ip_blocked (get_client_ip req) st).1 <;>
    cases fb <;> cases fg <;> cases fp <;>
      simp [process_request, hb]

/-! ## C7 — first writer wins for SuspiciousIP entries -/

/-- C7: a detector pass (volume rule then sensitive-path rule, both via
`get_or_create`) never alters an existing `SuspiciousIP` row — the row
found for an IP beforehand is still the row found afterwards, reason
untouched — and uniqueness of `ip_address` is preserved, so at most one
entry per IP exists across any number of runs in any order.  (This is
the semantics of the detector body; the shipped task aborts with
`NameError` before writing anything, see `detect_suspicious_ips`, and so
trivially also never overwrites.) -/
theorem detector_first_writer_wins (oneHourAgo : Int) (logs : List RequestLog)
    (susp : List SuspiciousIP) (ip : String) (e : SuspiciousIP)
    (hfind : susp.find? (fun x => x.ip_address = ip) = some e)
    (hnd : (susp.map (fun x => x.ip_address)).Nodup) :
    (detectBody oneHourAgo logs susp).find? (fun x => x.ip_address = ip) = some e ∧
    ((detectBody oneHourAgo logs susp).map (fun x => x.ip_address)).Nodup := by
  simp only [detectBody]
  refine foldl_preserve
    (fun s : List SuspiciousIP => s.find? (fun x => x.ip_address = ip) = some e ∧
      (s.map (fun x => x.ip_address)).Nodup)
    _ ?_ _ _
    (foldl_preserve
      (fun s : List SuspiciousIP => s.find? (fun x => x.ip_address = ip) = some e ∧
        (s.map (fun x => x.ip_address)).Nodup)
      _ ?_ _ _ ⟨hfind, hnd⟩)
  · intro b a hb
    exact ⟨find_getOrCreateSusp _ _ _ _ _ hb.1, nodup_getOrCreateSusp _ _ _ hb.2⟩
  · intro b a hb
    split
    · exact ⟨find_getOrCreateSusp _ _ _ _ _ hb.1, nodup_getOrCreateSusp _ _ _ hb.2⟩
    · exact hb

/-- Fixtures: an already-flagged IP that also trips the sensitive-path
rule in a later run. -/
def suspFixture : List SuspiciousIP :=
  [{ ip_address := "7.7.7.7", reason := "first reason" }]

def logsFixture : List RequestLog :=
  [{ ip_address := "7.7.7.7", timestamp := 50, path := "/admin" }]

/-- Witness for C7: the later run leaves the original reason in place
and creates no duplicate. -/
theorem detector_first_writer_wins_witness :
    (detectBody 0 logsFixture suspFixture).find? (fun x => x.ip_address = "7.7.7.7") =
      some { ip_address := "7.7.7.7", reason := "first reason" } ∧
    ((detectBody 0 logsFixture suspFixture).map (fun x => x.ip_address)).Nodup :=
  detector_first_writer_wins 0 logsFixture suspFixture "7.7.7.7"
    { ip_address := "7.7.7.7", reason := "first reason" } (by decide) (by decide)

/-! ## C9 — unblock invalidates the cache and unblocks -/

/-- Entries surviving the unblock filter never carry the unblocked IP. -/
theorem all_filter_ne (l : List BlockedIPEntry) (ip : String) :
    (l.filter (fun e => e.ip_address ≠ ip)).all (fun e => e.ip_address ≠ ip) = true := by
  simp only [List.all_eq_true]
  intro e he
  exact (List.mem_filter.mp he).2

/-- No surviving entry matches the unblocked IP. -/
theorem any_filter_ne (l : List BlockedIPEntry) (ip : String) :
    (l.filter (fun e => e.ip_address ≠ ip)).any (fun e => e.ip_address = ip) = false := by
  induction l with
  | nil => rfl
  | cons a t ih =>
    by_cases h : a.ip_address = ip <;> simp [List.filter_cons, h, ih]

/-- A request whose resolved IP is not reported blocked flows through
the whole pipeline and continues (`None`), absent faults. -/
theorem process_request_not_blocked_none (req : HttpRequest) (outs : List NetOutcome)
    (now : Int) (st0 : MWState)
    (hb : (is_ip_blocked (get_client_ip req) st0).1 = false) :
    (process_request {} req outs now st0).1 = none := by
  simp [process_request, hb]

/-- C9: unblocking a durably blocked IP deletes its `BlockedIP` row and
deletes (not falsifies) its block-cache key, so the next `is_ip_blocked`
re-queries the durable store and answers `false`, and a subsequent
request from that IP is not rejected — even from a state whose cache
still said `True`. -/
theorem unblock_invalidates_cache (st : MWState) (ip reason : String)
    (hv : validIp46 ip = true)
    (hp : st.blockedIPs.any (fun e => e.ip_address = ip) = true) :
    ∃ st' msgs, commandHandle ip reason true st = Except.ok (st', msgs) ∧
      st'.blockedIPs.all (fun e => e.ip_address ≠ ip) = true ∧
      lookupAssoc st'.blockCache ("blocked_ip_" ++ ip) = none ∧
      (is_ip_blocked ip st').1 = false ∧
      (∀ req outs now, get_client_ip req = ip →
        (process_request {} req outs now st').1 = none) := by
  refine ⟨{ st with
      blockedIPs := st.blockedIPs.filter (fun e => e.ip_address ≠ ip),
      blockCache := removeAssoc st.blockCache ("blocked_ip_" ++ ip) },
    [CmdMsg.success ("Successfully unblocked IP address: " ++ ip)],
    ?_, ?_, ?_, ?_, ?_⟩
  · simp [commandHandle, hv, hp]
  · exact all_filter_ne st.blockedIPs ip
  · exact lookupAssoc_removeAssoc st.blockCache ("blocked_ip_" ++ ip)
  · simp [is_ip_blocked, lookupAssoc_removeAssoc, any_filter_ne]
  · intro req outs now hreq
    apply process_request_not_blocked_none
    rw [hreq]
    simp [is_ip_blocked, lookupAssoc_removeAssoc, any_filter_ne]

/-- Witness for C9: `1.2.3.4` blocked durably with a stale `True` cache
entry; the unblock command then leads to acceptance. -/
theorem unblock_invalidates_cache_witness :
    ∃ st' msgs, commandHandle "1.2.3.4" "" true staleState = Except.ok (st', msgs) ∧
      st'.blockedIPs.all (fun e => e.ip_address ≠ "1.2.3.4") = true ∧
      lookupAssoc st'.blockCache ("blocked_ip_" ++ "1.2.3.4") = none ∧
      (is_ip_blocked "1.2.3.4" st').1 = false ∧
      (∀ req outs now, get_client_ip req = "1.2.3.4" →
        (process_request {} req outs now st').1 = none) :=
  unblock_invalidates_cache staleState "1.2.3.4" "" (by decide) (by decide)
